import Mathlib

/-!
Shallow embedding of `src/python/read_sensor_data.py`, a script that polls
DHT22 temperature/humidity sensors, appends each reading to a local
tab-separated log file and uploads it to a Google Sheet.

Modelling conventions:
* Python floats are embedded as rationals (`ℚ`).  Formatting/rounding to one
  decimal is embedded with `round` on `ℚ` (Python formats IEEE-754 doubles
  with round-half-even on the binary value; no claim here depends on a tie).
* Python dictionaries are embedded as insertion-ordered association lists:
  inserting an existing key updates it in place, a new key is appended
  (`dictInsert`), and `get` returns the value at the first matching key
  (`dictGet`).  This matches CPython dict semantics.
* The filesystem and the network are explicit parameters: a directory is
  `Option (List UrlFile)` (`none` = the directory does not exist, in which
  case `glob.glob` yields no paths), the local log is `Option String`
  (`none` = no open handle), and the Google-Sheets client is driven by a
  `RemoteEnv` of success flags for each external call.
* Python exceptions are embedded as `Except Unit` where they can escape
  (configuration parsing, and `open_output_file`'s `os.makedirs` step,
  which runs outside any handler) and are resolved away where the source
  catches them with a bare `except:` (the two writer functions, and the
  `try:` block of `open_output_file`, embedded as `open_output_file_try`).
-/

/-- Characters on which Python's argument-free `str.split` splits. -/
def isPySpace (c : Char) : Bool :=
  c = ' ' || c = '\t' || c = '\n' || c = '\r' || c = '\x0b' || c = '\x0c'

/-- Python `line.split()`: the maximal runs of non-whitespace characters,
in order (split on runs of whitespace, dropping empties). -/
def pySplit (s : String) : List String :=
  let p := s.toList.foldr
    (fun c acc =>
      if isPySpace c then
        ((if acc.2.isEmpty then acc.1 else String.mk acc.2 :: acc.1), ([] : List Char))
      else (acc.1, c :: acc.2)) ([], [])
  if p.2.isEmpty then p.1 else String.mk p.2 :: p.1

/-- Index of the last `'.'` in a character list, if any. -/
def lastDotIdx (cs : List Char) : Option Nat :=
  ((cs.enum.filter (fun p => p.2 = '.')).map (fun p => p.1)).getLast?

/-- Python `os.path.splitext(name)[0]` for a base name: drop the extension
after the last dot, except when every character before that dot is itself a
dot (so `".txt"` and `"..."` keep their full name). -/
def splitextStem (s : String) : String :=
  let cs := s.toList
  match lastDotIdx cs with
  | none => s
  | some i => if (cs.take i).all (fun c => c = '.') then s else ⟨cs.take i⟩

/-- Python's substring test `needle in hay`. -/
def isSubstrOf (needle hay : String) : Bool :=
  (List.range (hay.toList.length + 1)).any
    (fun i => List.isPrefixOf needle.toList (hay.toList.drop i))

/-- CPython dict insertion on an insertion-ordered association list:
an existing key is updated in place, a fresh key is appended at the end. -/
def dictInsert {α : Type} (d : List (String × α)) (k : String) (v : α) :
    List (String × α) :=
  if d.any (fun p => p.1 = k) then
    d.map (fun p => if p.1 = k then (k, v) else p)
  else d ++ [(k, v)]

/-- CPython `dict.get`: the value at the first (unique) matching key. -/
def dictGet {α : Type} (d : List (String × α)) (k : String) : Option α :=
  (d.find? (fun p => p.1 = k)).map (fun p => p.2)

/-- One sensor's parsed URL file: key/value pairs such as
`id`, `pin`, `name`. -/
abbrev NestDict := List (String × String)

/-- The mapping built by `open_url_files`: stripped file name ↦ parsed
key/value pairs. -/
abbrev UrlDict := List (String × NestDict)

/-- A candidate file in the url directory: its base name (as produced by
`os.path.basename`) and its lines (without terminators). -/
structure UrlFile where
  name : String
  lines : List String
deriving DecidableEq, Repr

/-- The body of the `for line in url_file` loop in `open_url_files`:
`(key, value) = line.split()` raises `ValueError` (modelled as `.error ()`)
unless the line splits into exactly two tokens; `nest_dict[key] = value`
otherwise. -/
def parse_url_file_go (nest : NestDict) : List String → Except Unit NestDict
  | [] => .ok nest
  | line :: rest =>
    match pySplit line with
    | [k, v] => parse_url_file_go (dictInsert nest k v) rest
    | _ => .error ()

/-- Parsing one URL file into its nested dictionary (`nest_dict`). -/
def parse_url_file (lines : List String) : Except Unit NestDict :=
  parse_url_file_go [] lines

/-- `read_sensor_data.open_url_files`'s matching test:
`any(sensor_string in file_string for sensor_string in sensor_list)`
where `file_string` is the base name with its extension stripped. -/
def file_matches (sensor_list : List String) (name : String) : Bool :=
  sensor_list.any (fun sensor_string => isSubstrOf sensor_string (splitextStem name))

/-- The `for file_path in glob.glob(dir_path + '*')` loop of
`open_url_files`, threading the mutable `url_dict`. -/
def open_url_files_go (sensor_list : List String) (url_dict : UrlDict) :
    List UrlFile → Except Unit UrlDict
  | [] => .ok url_dict
  | file :: rest =>
    let file_string := splitextStem file.name
    if file_matches sensor_list file.name then
      match parse_url_file file.lines with
      | .ok nest_dict =>
          open_url_files_go sensor_list (dictInsert url_dict file_string nest_dict) rest
      | .error e => .error e
    else
      open_url_files_go sensor_list url_dict rest

/-- `read_sensor_data.open_url_files`.  The directory is `none` when it does
not exist; `glob.glob` then matches no paths and the loop body never runs.
A `ValueError` from a malformed line propagates (the function has no
handler). -/
def open_url_files (dir : Option (List UrlFile)) (sensor_list : List String) :
    Except Unit UrlDict :=
  open_url_files_go sensor_list [] (dir.getD [])

/-- One step of the total parse: insert the line's key/value pair if the
line is well formed, keep the dictionary otherwise. -/
def parse_step (d : NestDict) (line : String) : NestDict :=
  match pySplit line with
  | [k, v] => dictInsert d k v
  | _ => d

/-- Total parse of a well-formed URL file (used to state theorems; agrees
with `parse_url_file` whenever every line splits into exactly two tokens). -/
def parse_nest (lines : List String) : NestDict :=
  lines.foldl parse_step []

/-- Every line of the file splits into exactly two whitespace-separated
tokens (the input constraint of the configuration format). -/
def wellFormedLines (lines : List String) : Bool :=
  lines.all (fun l => (pySplit l).length = 2)

/-- The list `read_sensor` returns on success:
`[time.strftime('%H:%M:%S', input_time), temp_c, temp_f, humidity]`. -/
structure SensorOutput where
  time_of_day : String
  temp_c : ℚ
  temp_f : ℚ
  humidity : ℚ
deriving DecidableEq, Repr

/-- `read_sensor_data.read_sensor`.  The blocking call
`Adafruit_DHT.read_retry(dht_sensor, dht_pin)` is abstracted as its result
`driver_result = (humidity, temp_c)`, either component possibly `None`.
On success the Fahrenheit value is derived as `(temp_c * 9/5) + 32`;
otherwise the function prints a diagnostic and returns `None`. -/
def read_sensor (driver_result : Option ℚ × Option ℚ) (input_time_hms : String) :
    Option SensorOutput :=
  match driver_result with
  | (some humidity, some temp_c) =>
      some ⟨input_time_hms, temp_c, temp_c * 9 / 5 + 32, humidity⟩
  | _ => none

/-- The header written into an empty output file by `open_output_file`. -/
def header_line : String := "date\ttime\ttemp_c\ttemp_f\thumidity\tpin\r\n"

/-- The `try:` block of `read_sensor_data.open_output_file`.  `disk` is the
current content of the output file (`none` = the file does not exist;
opening with mode `'a+'` then creates it empty).  `open_fails` is true when
`open` (or the header write) raises; the bare `except: pass` then makes the
function return `None`.  If the opened file has size 0 the header line is
written. -/
def open_output_file_try (disk : Option String) (open_fails : Bool) : Option String :=
  if open_fails then none
  else
    let content := disk.getD ""
    if content = "" then some header_line else some content

/-- `os.path.exists(output_dir)` for
`output_dir = os.path.join(os.path.realpath(__file__), "output")`: the
parent of this path is the script itself, a regular file, so no directory
can exist at this path. -/
def output_dir_exists : Bool := false

/-- Whether `os.makedirs(output_dir)` succeeds on that same path: creating
a directory beneath a regular file raises `NotADirectoryError`, so it never
does. -/
def output_makedirs_ok : Bool := false

/-- `read_sensor_data.open_output_file` in full.  Before its `try:` block
it runs `if not os.path.exists(output_dir): os.makedirs(output_dir)` —
outside any handler — so the `NotADirectoryError` from `os.makedirs` (the
output directory path is rooted at `os.path.realpath(__file__)`, a regular
file) propagates to the caller, modelled as `.error ()`; the `try:` block
is only reached if the directory exists or was created. -/
def open_output_file (disk : Option String) (open_fails : Bool) :
    Except Unit (Option String) :=
  if !output_dir_exists && !output_makedirs_ok then .error ()
  else .ok (open_output_file_try disk open_fails)

/-- Python `str(x)` for an optional string, as used on `dht_pin` (which is
`sensor_dict.get('pin')` and may be `None`). -/
def pyStrOpt : Option String → String
  | some s => s
  | none => "None"

/-- Python `'{:0.1f}'.format q`: the number rounded to one decimal digit. -/
def fmt1 (q : ℚ) : String :=
  let n : ℤ := round (q * 10)
  if n < 0 then "-" ++ toString ((-n) / 10) ++ "." ++ toString ((-n) % 10)
  else toString (n / 10) ++ "." ++ toString (n % 10)

/-- The line `append_file` writes:
`'{0}\t{1}\t{2:0.1f}\t{3:0.1f}\t{4:0.1f}\t{5}\r\n'.format(date, time,
temp_c, temp_f, humidity, dht_pin)`. -/
def local_line (date : String) (lst : SensorOutput) (pin : Option String) : String :=
  date ++ "\t" ++ lst.time_of_day ++ "\t" ++ fmt1 lst.temp_c ++ "\t" ++
    fmt1 lst.temp_f ++ "\t" ++ fmt1 lst.humidity ++ "\t" ++ pyStrOpt pin ++ "\r\n"

/-- `read_sensor_data.append_file`.  Everything runs under `try/except`:
a `None` handle (`AttributeError` on `.write`), a `None` reading
(`TypeError` on `input_list[0]`) or a failing write/flush (`write_ok =
false`) is caught and only prints `"Fail to write to file"`.  Returns the
file content after the call and whether the data line was written. -/
def append_file (handle : Option String) (input_list : Option SensorOutput)
    (date : String) (dht_pin : Option String) (write_ok : Bool) :
    Option String × Bool :=
  match handle, input_list with
  | some content, some lst =>
      if write_ok then (some (content ++ local_line date lst dht_pin), true)
      else (some content, false)
  | _, _ => (handle, false)

/-- Python `round(x, 1)` on the embedded rational. -/
def pyRound1 (q : ℚ) : ℚ := ((round (q * 10) : ℤ) : ℚ) / 10

/-- A cell of a row sent to `sheet.append_row`: Python strings stay strings,
numbers are rationals. -/
inductive Cell where
  | str : String → Cell
  | num : ℚ → Cell
deriving DecidableEq, Repr

/-- Outcome flags for the external Google-Sheets calls made by one
`append_google_sheet` invocation: `gspread.service_account()`,
`gc.open_by_key(key).sheet1`, and `sheet.append_row(list)`. -/
structure RemoteEnv where
  auth_ok : Bool
  open_ok : Bool
  append_ok : Bool
deriving DecidableEq, Repr

/-- The `append_list` built by `append_google_sheet`:
`[date, input_list[0], round(input_list[1], 1), round(input_list[2], 1),
round(input_list[3], 1)]` where `input_list = [time, temp_c, temp_f,
humidity]`. -/
def remote_row (lst : SensorOutput) (date : String) : List Cell :=
  [Cell.str date, Cell.str lst.time_of_day, Cell.num (pyRound1 lst.temp_c),
    Cell.num (pyRound1 lst.temp_f), Cell.num (pyRound1 lst.humidity)]

/-- `read_sensor_data.append_google_sheet`, observed as the list of
`sheet.append_row` calls it issues (each with the sheet key it opened).
Everything runs under `try/except`: if authentication or opening the sheet
fails, or the reading is `None` (`TypeError` on `input_list[0]` while
building `append_list`), no `append_row` call is issued and only
`"Failed to upload to Google Sheets"` is printed.  `env.append_ok` records
whether the issued `append_row` call itself succeeded; if it raises, the
exception is caught the same way and changes nothing else. -/
def append_google_sheet (env : RemoteEnv) (input_list : Option SensorOutput)
    (sheet_key : Option String) (date : String) :
    List (Option String × List Cell) :=
  if env.auth_ok && env.open_ok then
    match input_list with
    | some lst => [(sheet_key, remote_row lst date)]
    | none => []
  else []

/-- One configured sensor as seen by one pass of the poll loop, together
with the environment of that pass: its `sensor_dict` from the url mapping,
the driver's result for this cycle, and the fate of the two write paths. -/
structure CycleSensor where
  conf : NestDict
  driver : Option ℚ × Option ℚ
  local_write_ok : Bool
  remote : RemoteEnv
deriving DecidableEq, Repr

/-- What the poll loop did for one sensor in one cycle: whether the local
data line was written, and the remote `append_row` calls issued. -/
structure SensorRecord where
  local_written : Bool
  remote_calls : List (Option String × List Cell)
deriving DecidableEq, Repr

/-- The `for sensor_location, sensor_dict in sheet_ids.items()` body of
`main`: read the sensor, append to the local file, append to the Google
sheet — sequentially for each configured sensor, threading the file
handle.  Returns the final file content and one record per sensor. -/
def run_cycle (f : Option String) (date hms : String) :
    List CycleSensor → Option String × List SensorRecord
  | [] => (f, [])
  | s :: rest =>
    let dht_pin := dictGet s.conf "pin"
    let sensor_output := read_sensor s.driver hms
    let fw := append_file f sensor_output date dht_pin s.local_write_ok
    let calls := append_google_sheet s.remote sensor_output (dictGet s.conf "id") date
    let r := run_cycle fw.1 date hms rest
    (r.1, ⟨fw.2, calls⟩ :: r.2)

/-- Python float `%`: `fmod x y = x - y * floor (x / y)` (the result has the
sign of `y`), as used in `main`'s sleep expression. -/
def fmod (x y : ℚ) : ℚ := x - y * ⌊x / y⌋

/-- The argument of `time.sleep` at the end of each cycle of `main`:
`120.0 - ((time.time() - start_time) % 60.0)`. -/
def cycle_sleep_seconds (start_time now : ℚ) : ℚ :=
  120 - fmod (now - start_time) 60

/-- The startup portion of `main`: load the url files for the compiled-in
sensor list, then open the output file.  A `ValueError` from a malformed
configuration line propagates out of `open_url_files`, and the uncaught
`NotADirectoryError` from `open_output_file`'s `os.makedirs` propagates out
of `open_output_file`; either is fatal before the poll loop. -/
def main_startup (url_dir : Option (List UrlFile)) (disk : Option String)
    (open_fails : Bool) : Except Unit (UrlDict × Option String) := do
  let sheet_ids ← open_url_files url_dir ["home_livingroom", "home_outside"]
  let f ← open_output_file disk open_fails
  return (sheet_ids, f)

/-- The per-sensor record as a function of that sensor's own inputs alone
(plus whether the process holds an open file handle).  Used to state that
the poll loop treats sensors and write paths independently. -/
def sensor_record (handle_some : Bool) (date hms : String) (s : CycleSensor) :
    SensorRecord :=
  ⟨handle_some && (read_sensor s.driver hms).isSome && s.local_write_ok,
   append_google_sheet s.remote (read_sensor s.driver hms) (dictGet s.conf "id") date⟩

/-- Iterated `append_file` for a list of successful readings (each with its
pin), with the write itself succeeding: the per-cycle local writes of the
poll loop, observed on the file content. -/
def append_file_list (f : Option String) (date : String)
    (items : List (SensorOutput × Option String)) : Option String :=
  items.foldl (fun h it => (append_file h (some it.1) date it.2 true).1) f

/-- The data lines `append_file` produces for a list of readings. -/
def data_lines (date : String) : List (SensorOutput × Option String) → String
  | [] => ""
  | it :: rest => local_line date it.1 it.2 ++ data_lines date rest

theorem append_file_fst_isSome (f : Option String) (out : Option SensorOutput)
    (date : String) (pin : Option String) (wok : Bool) :
    (append_file f out date pin wok).1.isSome = f.isSome := by
  cases f <;> cases out <;> cases wok <;> simp [append_file]

theorem append_file_snd (f : Option String) (out : Option SensorOutput)
    (date : String) (pin : Option String) (wok : Bool) :
    (append_file f out date pin wok).2 = (f.isSome && out.isSome && wok) := by
  cases f <;> cases out <;> cases wok <;> simp [append_file]

theorem run_cycle_records (f : Option String) (date hms : String)
    (sensors : List CycleSensor) :
    (run_cycle f date hms sensors).2 = sensors.map (sensor_record f.isSome date hms) := by
  induction sensors generalizing f with
  | nil => rfl
  | cons s rest ih =>
    simp only [run_cycle, List.map]
    rw [ih, append_file_fst_isSome]
    congr 1
    simp [sensor_record, append_file_snd]

theorem parse_url_file_go_ok (lines : List String) : ∀ nest : NestDict,
    wellFormedLines lines = true →
    parse_url_file_go nest lines = .ok (lines.foldl parse_step nest) := by
  induction lines with
  | nil => intro nest _; rfl
  | cons l rest ih =>
    intro nest hwf
    simp only [wellFormedLines, List.all_cons, Bool.and_eq_true, decide_eq_true_eq] at hwf
    obtain ⟨h2, hrest⟩ := hwf
    obtain ⟨k, v, hp⟩ : ∃ k v, pySplit l = [k, v] := by
      cases hl : pySplit l with
      | nil => rw [hl] at h2; simp at h2
      | cons a t =>
        cases t with
        | nil => rw [hl] at h2; simp at h2
        | cons b t2 =>
          cases t2 with
          | nil => exact ⟨a, b, rfl⟩
          | cons c t3 => rw [hl] at h2; simp at h2
    simp only [parse_url_file_go, hp, List.foldl_cons, parse_step]
    exact ih _ (by simpa [wellFormedLines] using hrest)

theorem parse_url_file_ok (lines : List String) (h : wellFormedLines lines = true) :
    parse_url_file lines = .ok (parse_nest lines) :=
  parse_url_file_go_ok lines [] h

theorem dictInsert_of_not_mem {α : Type} (d : List (String × α)) (k : String) (v : α)
    (h : k ∉ d.map Prod.fst) : dictInsert d k v = d ++ [(k, v)] := by
  have hfalse : d.any (fun p => p.1 = k) = false := by
    rw [List.any_eq_false]
    intro p hp
    simp only [decide_eq_true_eq]
    intro hpk
    exact h (List.mem_map.mpr ⟨p, hp, hpk⟩)
  simp [dictInsert, hfalse]

theorem open_url_files_go_append (sensor_list : List String) :
    ∀ (files : List UrlFile) (d : UrlDict),
    (∀ f ∈ files, file_matches sensor_list f.name = true → wellFormedLines f.lines = true) →
    ((files.filter (fun f => file_matches sensor_list f.name)).map
        (fun f => splitextStem f.name)).Nodup →
    (∀ f ∈ files, file_matches sensor_list f.name = true →
        splitextStem f.name ∉ d.map Prod.fst) →
    open_url_files_go sensor_list d files
      = .ok (d ++ (files.filter (fun f => file_matches sensor_list f.name)).map
          (fun f => (splitextStem f.name, parse_nest f.lines))) := by
  intro files
  induction files with
  | nil => intro d _ _ _; simp [open_url_files_go]
  | cons f rest ih =>
    intro d hwf hnd hdis
    by_cases hm : file_matches sensor_list f.name = true
    · have hfil : (f :: rest).filter (fun g => file_matches sensor_list g.name)
          = f :: rest.filter (fun g => file_matches sensor_list g.name) :=
        List.filter_cons_of_pos hm
      rw [hfil] at hnd
      simp only [List.map_cons, List.nodup_cons] at hnd
      obtain ⟨hhead, htail⟩ := hnd
      have hins : dictInsert d (splitextStem f.name) (parse_nest f.lines)
          = d ++ [(splitextStem f.name, parse_nest f.lines)] :=
        dictInsert_of_not_mem _ _ _ (hdis f (List.mem_cons_self f rest) hm)
      have hstep : open_url_files_go sensor_list d (f :: rest)
          = open_url_files_go sensor_list
              (d ++ [(splitextStem f.name, parse_nest f.lines)]) rest := by
        simp only [open_url_files_go, hm, if_true,
          parse_url_file_ok f.lines (hwf f (List.mem_cons_self f rest) hm), hins]
      rw [hstep, ih (d ++ [(splitextStem f.name, parse_nest f.lines)])
        (fun g hg hgm => hwf g (List.mem_cons_of_mem f hg) hgm) htail
        (fun g hg hgm => by
          simp only [List.map_append, List.mem_append, List.map_cons, List.map_nil,
            List.mem_singleton, not_or]
          refine ⟨hdis g (List.mem_cons_of_mem f hg) hgm, ?_⟩
          intro heq
          exact hhead (heq ▸ List.mem_map.mpr
            ⟨g, List.mem_filter.mpr ⟨hg, hgm⟩, rfl⟩))]
      rw [hfil]
      simp [List.append_assoc]
    · have hm' : file_matches sensor_list f.name = false := by
        cases h : file_matches sensor_list f.name
        · rfl
        · exact absurd h hm
      have hfil : (f :: rest).filter (fun g => file_matches sensor_list g.name)
          = rest.filter (fun g => file_matches sensor_list g.name) :=
        List.filter_cons_of_neg (by simp [hm'])
      rw [hfil] at hnd
      have hstep : open_url_files_go sensor_list d (f :: rest)
          = open_url_files_go sensor_list d rest := by
        simp only [open_url_files_go, hm', Bool.false_eq_true, if_false]
      rw [hstep, ih d (fun g hg hgm => hwf g (List.mem_cons_of_mem f hg) hgm) hnd
        (fun g hg hgm => hdis g (List.mem_cons_of_mem f hg) hgm), hfil]

theorem append_file_list_some (date : String) :
    ∀ (items : List (SensorOutput × Option String)) (c : String),
    append_file_list (some c) date items = some (c ++ data_lines date items) := by
  intro items
  induction items with
  | nil => intro c; simp [append_file_list, data_lines]
  | cons it rest ih =>
    intro c
    have hstep : (append_file (some c) (some it.1) date it.2 true).1
        = some (c ++ local_line date it.1 it.2) := rfl
    show append_file_list ((append_file (some c) (some it.1) date it.2 true).1) date rest
        = some (c ++ data_lines date (it :: rest))
    rw [hstep, ih]
    simp [data_lines, String.append_assoc]

/-- Claim C1, counterexample.  For the successful reading
(humidity 55.2, temperature 21.4 °C) taken at 12:00:00 with every external
call succeeding, `append_google_sheet` issues exactly one `append_row` call,
but its row has five values — date, time of day, rounded Celsius, rounded
Fahrenheit, rounded humidity — not the four values (without the time of
day) the claim states. -/
theorem c1_counterexample :
    append_google_sheet ⟨true, true, true⟩
        (read_sensor (some (552/10 : ℚ), some (214/10)) "12:00:00")
        (some "sheetKey") "2021-01-01"
      = [(some "sheetKey",
          [Cell.str "2021-01-01", Cell.str "12:00:00",
            Cell.num (pyRound1 (214/10)), Cell.num (pyRound1 (214/10 * 9 / 5 + 32)),
            Cell.num (pyRound1 (552/10))])]
    ∧ ([Cell.str "2021-01-01", Cell.str "12:00:00",
          Cell.num (pyRound1 (214/10)), Cell.num (pyRound1 (214/10 * 9 / 5 + 32)),
          Cell.num (pyRound1 (552/10))].length = 4) = False := by
  refine ⟨rfl, ?_⟩
  simp

/-- Claim C1, amended.  For every successful sensor reading, when
authentication and opening the sheet succeed, the Remote Sheet Uploader
issues exactly one append-row call to the first sheet of the configured
spreadsheet, whose row consists of exactly five values: the date, the time
of day, temperatureCelsius rounded to 1 decimal, temperatureFahrenheit
rounded to 1 decimal, and humidityPercent rounded to 1 decimal. -/
theorem c1_amended_remote_row (env : RemoteEnv) (lst : SensorOutput)
    (sheet_key : Option String) (date : String)
    (hauth : env.auth_ok = true) (hopen : env.open_ok = true) :
    append_google_sheet env (some lst) sheet_key date
      = [(sheet_key,
          [Cell.str date, Cell.str lst.time_of_day, Cell.num (pyRound1 lst.temp_c),
            Cell.num (pyRound1 lst.temp_f), Cell.num (pyRound1 lst.humidity)])] := by
  simp [append_google_sheet, hauth, hopen, remote_row]

/-- Witness for `c1_amended_remote_row` at a concrete reading. -/
theorem c1_witness :
    (⟨true, true, true⟩ : RemoteEnv).auth_ok = true
    ∧ (⟨true, true, true⟩ : RemoteEnv).open_ok = true
    ∧ append_google_sheet ⟨true, true, true⟩
        (some ⟨"12:00:00", 214/10, 7052/100, 552/10⟩) (some "sheetKey") "2021-01-01"
      = [(some "sheetKey",
          [Cell.str "2021-01-01", Cell.str "12:00:00", Cell.num (pyRound1 (214/10)),
            Cell.num (pyRound1 (7052/100)), Cell.num (pyRound1 (552/10))])] :=
  ⟨rfl, rfl,
    c1_amended_remote_row ⟨true, true, true⟩ ⟨"12:00:00", 214/10, 7052/100, 552/10⟩
      (some "sheetKey") "2021-01-01" rfl rfl⟩

/-- Claim C2.  In every poll cycle, what happens for each sensor — whether
its local data line gets written, and which remote append-row calls are
issued for it — is exactly `sensor_record`, a function of that sensor's own
configuration, driver result and write-path environment alone (plus whether
the process holds an open file handle).  Hence a caught failure in either
write path for any sensor never changes the other write path for that
sensor, never changes any write for the other sensors of the cycle, and the
loop always processes every sensor (the record list is the full `map`). -/
theorem c2_write_paths_independent (f : Option String) (date hms : String)
    (sensors : List CycleSensor) :
    (run_cycle f date hms sensors).2
      = sensors.map (sensor_record f.isSome date hms) :=
  run_cycle_records f date hms sensors

/-- Claim C3.  When the driver yields no data (absent humidity or
temperature), `read_sensor` returns `None`; then `append_file` leaves the
local log untouched and reports no write, `append_google_sheet` issues no
append-row call, and the poll loop simply records `⟨false, []⟩` for that
sensor and proceeds to the rest of the cycle without raising. -/
theorem c3_no_data_skips_writes (f : Option String) (date hms : String)
    (s : CycleSensor) (rest : List CycleSensor)
    (h : read_sensor s.driver hms = none) :
    append_file f (read_sensor s.driver hms) date (dictGet s.conf "pin")
        s.local_write_ok = (f, false)
    ∧ append_google_sheet s.remote (read_sensor s.driver hms)
        (dictGet s.conf "id") date = []
    ∧ run_cycle f date hms (s :: rest)
      = ((run_cycle f date hms rest).1, ⟨false, []⟩ :: (run_cycle f date hms rest).2) := by
  refine ⟨?_, ?_, ?_⟩
  · rw [h]; cases f <;> rfl
  · rw [h]; simp [append_google_sheet]
  · simp only [run_cycle, h]
    have h1 : append_file f none date (dictGet s.conf "pin") s.local_write_ok
        = (f, false) := by cases f <;> rfl
    rw [h1]
    simp [append_google_sheet]

/-- Witness for `c3_no_data_skips_writes`: a sensor whose driver returned
no humidity. -/
theorem c3_witness :
    read_sensor (CycleSensor.driver ⟨[("pin", "4")], (none, some 20), true, ⟨true, true, true⟩⟩) "12:00:00" = none
    ∧ run_cycle (some "log") "2021-01-01" "12:00:00"
        [⟨[("pin", "4")], (none, some 20), true, ⟨true, true, true⟩⟩]
      = ((run_cycle (some "log") "2021-01-01" "12:00:00" []).1,
         ⟨false, []⟩ :: (run_cycle (some "log") "2021-01-01" "12:00:00" []).2) :=
  ⟨rfl,
    (c3_no_data_skips_writes (some "log") "2021-01-01" "12:00:00"
      ⟨[("pin", "4")], (none, some 20), true, ⟨true, true, true⟩⟩ [] rfl).2.2⟩

/-- Claim C4.  If the configuration directory is missing, the program does
fail with a fatal error at startup, before the poll loop begins.  The scan
of the missing directory itself is harmless — `glob.glob` yields no paths
and `open_url_files` returns an empty mapping without raising — but `main`
then calls `open_output_file`, whose `os.makedirs` runs outside any handler
on a path rooted at `os.path.realpath(__file__)` (a regular file) and
raises `NotADirectoryError`, so startup never reaches the `while` loop. -/
theorem c4_fatal_startup (disk : Option String) (open_fails : Bool) :
    open_url_files none ["home_livingroom", "home_outside"] = .ok []
    ∧ open_output_file disk open_fails = .error ()
    ∧ main_startup none disk open_fails = .error () :=
  ⟨rfl, rfl, rfl⟩

/-- Claim C5.  Opening a fresh local log (absent, or existing but empty)
writes the header once, and appending N successful readings then yields
exactly the header line followed by the N tab-separated, CRLF-terminated
data lines in the fixed column order (`local_line`); opening an existing
non-empty log leaves its content verbatim — the header is never rewritten
or duplicated — and appends add only data lines after it. -/
theorem c5_local_log_layout (date : String)
    (items : List (SensorOutput × Option String)) (d : String) :
    append_file_list (open_output_file_try none false) date items
      = some (header_line ++ data_lines date items)
    ∧ append_file_list (open_output_file_try (some "") false) date items
      = some (header_line ++ data_lines date items)
    ∧ (d ≠ "" → append_file_list (open_output_file_try (some d) false) date items
      = some (d ++ data_lines date items)) := by
  refine ⟨?_, ?_, fun hd => ?_⟩
  · have h : open_output_file_try none false = some header_line := rfl
    rw [h, append_file_list_some]
  · have h : open_output_file_try (some "") false = some header_line := rfl
    rw [h, append_file_list_some]
  · have h : open_output_file_try (some d) false = some d := by
      simp [open_output_file_try, hd]
    rw [h, append_file_list_some]

/-- Witness for `c5_local_log_layout` on an existing non-empty log. -/
theorem c5_witness :
    ("x" : String) ≠ ""
    ∧ append_file_list (open_output_file_try (some "x") false) "2021-01-01" []
      = some ("x" ++ data_lines "2021-01-01" []) :=
  ⟨by decide, (c5_local_log_layout "2021-01-01" [] "x").2.2 (by decide)⟩

/-- Claim C6.  For every configuration directory and allow-list — with the
configuration input constraint that matching files are well formed, and
their stripped base names distinct — `open_url_files` returns exactly the
files whose base name with the extension stripped contains at least one
allow-list string as a substring, each parsed into its key/value fields;
non-matching files are excluded. -/
theorem c6_load_config (files : List UrlFile) (sensor_list : List String)
    (hwf : ∀ f ∈ files, file_matches sensor_list f.name = true →
        wellFormedLines f.lines = true)
    (hnd : ((files.filter (fun f => file_matches sensor_list f.name)).map
        (fun f => splitextStem f.name)).Nodup) :
    open_url_files (some files) sensor_list
      = .ok ((files.filter (fun f => file_matches sensor_list f.name)).map
          (fun f => (splitextStem f.name, parse_nest f.lines))) := by
  have h := open_url_files_go_append sensor_list files [] hwf hnd
    (fun f _ _ => by simp)
  simpa [open_url_files] using h

/-- Witness for `c6_load_config`: one matching and one non-matching file. -/
theorem c6_witness :
    (∀ f ∈ [UrlFile.mk "home_livingroom.txt"
              ["id\tABC123", "pin\t4", "name\thome_livingroom"],
            UrlFile.mk "other.txt" ["id\tZ9"]],
        file_matches ["home_livingroom"] f.name = true →
        wellFormedLines f.lines = true)
    ∧ (([UrlFile.mk "home_livingroom.txt"
            ["id\tABC123", "pin\t4", "name\thome_livingroom"],
          UrlFile.mk "other.txt" ["id\tZ9"]].filter
            (fun f => file_matches ["home_livingroom"] f.name)).map
          (fun f => splitextStem f.name)).Nodup
    ∧ open_url_files
        (some [UrlFile.mk "home_livingroom.txt"
                  ["id\tABC123", "pin\t4", "name\thome_livingroom"],
                UrlFile.mk "other.txt" ["id\tZ9"]]) ["home_livingroom"]
      = .ok [("home_livingroom",
              [("id", "ABC123"), ("pin", "4"), ("name", "home_livingroom")])] :=
  ⟨by decide, by decide,
    c6_load_config
      [UrlFile.mk "home_livingroom.txt"
          ["id\tABC123", "pin\t4", "name\thome_livingroom"],
        UrlFile.mk "other.txt" ["id\tZ9"]] ["home_livingroom"]
      (by decide) (by decide)⟩

/-- Claim C7.  At the end of a cycle the sleep delay is computed as
`120 − ((now − processStartTime) mod 60)` seconds: whenever the elapsed
time is in `[0, 60)` the delay equals `120 −` elapsed, and in particular a
cycle finishing 5 seconds after process start sleeps 115 seconds. -/
theorem c7_sleep_alignment :
    (∀ start now : ℚ, 0 ≤ now - start → now - start < 60 →
        cycle_sleep_seconds start now = 120 - (now - start))
    ∧ (∀ t0 : ℚ, cycle_sleep_seconds t0 (t0 + 5) = 115) := by
  have key : ∀ start now : ℚ, 0 ≤ now - start → now - start < 60 →
      cycle_sleep_seconds start now = 120 - (now - start) := by
    intro s n h0 h60
    have hfl : ⌊(n - s) / 60⌋ = (0 : ℤ) := by
      rw [Int.floor_eq_zero_iff]
      refine Set.mem_Ico.mpr ⟨div_nonneg h0 (by norm_num), ?_⟩
      rw [div_lt_one (by norm_num : (0:ℚ) < 60)]
      exact h60
    simp only [cycle_sleep_seconds, fmod, hfl, Int.cast_zero, mul_zero, sub_zero]
  refine ⟨key, fun t0 => ?_⟩
  have h := key t0 (t0 + 5) (by linarith) (by linarith)
  rw [h]; ring

/-- Witness for `c7_sleep_alignment` at start time 0 and now 5. -/
theorem c7_witness :
    (0 : ℚ) ≤ 5 - 0 ∧ (5 : ℚ) - 0 < 60
    ∧ cycle_sleep_seconds 0 5 = 120 - (5 - 0) :=
  ⟨by norm_num, by norm_num, c7_sleep_alignment.1 0 5 (by norm_num) (by norm_num)⟩

/-- Claim C8.  Whenever `read_sensor` succeeds, the derived Fahrenheit
temperature equals `temp_c * 9/5 + 32` exactly (on the embedded exact
rationals, before any 1-decimal rounding applied on output). -/
theorem c8_fahrenheit (driver_result : Option ℚ × Option ℚ) (hms : String)
    (out : SensorOutput) (h : read_sensor driver_result hms = some out) :
    out.temp_f = out.temp_c * 9 / 5 + 32 := by
  obtain ⟨oh, ot⟩ := driver_result
  cases oh with
  | none => simp [read_sensor] at h
  | some hv =>
    cases ot with
    | none => simp [read_sensor] at h
    | some tv =>
      simp only [read_sensor, Option.some.injEq] at h
      rw [← h]

/-- Witness for `c8_fahrenheit` at humidity 55.2 and temperature 21.4 °C. -/
theorem c8_witness :
    read_sensor (some (552/10 : ℚ), some (214/10)) "12:00:00"
      = some ⟨"12:00:00", 214/10, 214/10 * 9 / 5 + 32, 552/10⟩
    ∧ SensorOutput.temp_f ⟨"12:00:00", 214/10, 214/10 * 9 / 5 + 32, 552/10⟩
      = SensorOutput.temp_c ⟨"12:00:00", 214/10, 214/10 * 9 / 5 + 32, 552/10⟩
          * 9 / 5 + 32 :=
  ⟨rfl, c8_fahrenheit (some (552/10), some (214/10)) "12:00:00" _ rfl⟩

/-- Claim C9.  The mapping is keyed by the base name with the extension
stripped: when two matching files have equal stripped names (such as
`a.txt` and `a.conf`), the file scanned later silently overwrites the
earlier one's parsed fields in the returned mapping; likewise a key
repeated within one file silently takes the last value. -/
theorem c9_duplicate_keys (sensor_list : List String) (f1 f2 : UrlFile)
    (hstem : splitextStem f1.name = splitextStem f2.name)
    (hm : file_matches sensor_list f1.name = true)
    (hw1 : wellFormedLines f1.lines = true)
    (hw2 : wellFormedLines f2.lines = true) :
    open_url_files (some [f1, f2]) sensor_list
      = .ok [(splitextStem f2.name, parse_nest f2.lines)]
    ∧ (∀ l1 l2 k v1 v2 : String, pySplit l1 = [k, v1] → pySplit l2 = [k, v2] →
        dictGet (parse_nest [l1, l2]) k = some v2) := by
  have hm2 : file_matches sensor_list f2.name = true := by
    simp only [file_matches] at hm ⊢
    rw [← hstem]
    exact hm
  constructor
  · show open_url_files_go sensor_list [] [f1, f2] = _
    simp only [open_url_files_go, hm, if_true, parse_url_file_ok f1.lines hw1,
      hm2, parse_url_file_ok f2.lines hw2]
    simp [dictInsert, hstem]
  · intro l1 l2 k v1 v2 h1 h2
    simp [parse_nest, parse_step, h1, h2, dictInsert, dictGet, List.find?]

/-- Witness for `c9_duplicate_keys`: files `a.txt` and `a.conf`, and a
`pin` key repeated within one file. -/
theorem c9_witness :
    splitextStem "a.txt" = splitextStem "a.conf"
    ∧ file_matches ["a"] "a.txt" = true
    ∧ wellFormedLines ["id\tA1"] = true
    ∧ wellFormedLines ["id\tA2"] = true
    ∧ open_url_files (some [⟨"a.txt", ["id\tA1"]⟩, ⟨"a.conf", ["id\tA2"]⟩]) ["a"]
      = .ok [("a", [("id", "A2")])]
    ∧ dictGet (parse_nest ["pin\t1", "pin\t2"]) "pin" = some "2" :=
  ⟨rfl, rfl, rfl, rfl,
    (c9_duplicate_keys ["a"] ⟨"a.txt", ["id\tA1"]⟩ ⟨"a.conf", ["id\tA2"]⟩
      rfl rfl rfl rfl).1,
    (c9_duplicate_keys ["a"] ⟨"a.txt", ["id\tA1"]⟩ ⟨"a.conf", ["id\tA2"]⟩
      rfl rfl rfl rfl).2 "pin\t1" "pin\t2" "pin" "1" "2" rfl rfl⟩

/-- Claim C10.  If opening the local output file fails, the `try/except:
pass` of `open_output_file` (its `try:` block is `open_output_file_try`)
suppresses the error and returns no handle; every later local write then
fails inside `append_file`'s catch-all handler without raising (the handle
stays `none`, nothing is written), while the poll loop keeps running and
the remote uploads of every sensor proceed exactly as they would
otherwise. -/
theorem c10_open_failure_suppressed (date hms : String)
    (sensors : List CycleSensor) (disk : Option String)
    (out : Option SensorOutput) (pin : Option String) (wok : Bool) :
    open_output_file_try disk true = none
    ∧ append_file none out date pin wok = (none, false)
    ∧ (run_cycle none date hms sensors).2
      = sensors.map (fun s => ⟨false,
          append_google_sheet s.remote (read_sensor s.driver hms)
            (dictGet s.conf "id") date⟩) := by
  refine ⟨rfl, ?_, ?_⟩
  · cases out <;> rfl
  · rw [run_cycle_records]
    simp [sensor_record]
